import Mathlib

/-!
Shallow embedding of `src/server.js` (AzSuper/hamzaserver): an Express +
SQLite CRUD backend for "materials".  Rows live in a single `materials`
table; attachments live on disk under `uploads/pdfs` and `uploads/images`.
The embedding models the filesystem as a list of paths, the database as a
list of rows plus an autoincrement counter, and each route handler as a
pure function from (filesystem, database, request) to (filesystem,
database, response).  Injected Boolean fault flags model the points where
SQLite callbacks can report an error (`db.get`, `db.run`).
-/

namespace HamzaServer

/-- A file upload as multer receives it: the client-supplied original
filename and the value of `Date.now()` when multer stores the file
(`filename` callback in the `multer.diskStorage` configuration). -/
structure Upload where
  originalname : String
  now : Nat
deriving Repr, DecidableEq

/-- `file.originalname.replace(/\s/g, '_')`: every whitespace character of
the original filename is replaced by an underscore. -/
def sanitizeName (s : String) : String :=
  String.mk (s.data.map (fun c => if c.isWhitespace then '_' else c))

/-- The stored filename generated by the multer `filename` callback:
`` `${Date.now()}-${file.originalname.replace(/\s/g, '_')}` ``. -/
def storedFilename (u : Upload) : String :=
  toString u.now ++ "-" ++ sanitizeName u.originalname

/-- Destination of a `pdf`-field upload: the `pdfs` partition. -/
def pdfUploadPath (u : Upload) : String :=
  "uploads/pdfs/" ++ storedFilename u

/-- Destination of an `image`-field upload: the `images` partition. -/
def imageUploadPath (u : Upload) : String :=
  "uploads/images/" ++ storedFilename u

/-- Character-level scan keeping the text after the last `/` seen. -/
def lastComponentAux : List Char → List Char → List Char
  | [], acc => acc.reverse
  | c :: cs, acc =>
    if c = '/' then lastComponentAux cs []
    else lastComponentAux cs (c :: acc)

/-- `path.basename`: the final component of a `/`-separated path. -/
def basename (p : String) : String :=
  String.mk (lastComponentAux p.data [])

/-- The filesystem under the upload root, as the list of paths of the
files currently present. -/
abbrev FileSys := List String

/-- Writing a file: the path becomes present (present paths stay unique). -/
def fsWrite (fs : FileSys) (p : String) : FileSys :=
  if p ∈ fs then fs else p :: fs

/-- `if (fs.existsSync(p)) fs.unlinkSync(p)`: remove the file if present,
no-op if absent. -/
def fsRemove (fs : FileSys) (p : String) : FileSys :=
  fs.erase p

/-- One row of the `materials` table:
`id INTEGER PRIMARY KEY AUTOINCREMENT, name TEXT NOT NULL, desc TEXT NOT NULL,
category TEXT NOT NULL, pdf_path TEXT NOT NULL, image_path TEXT`. -/
structure Row where
  id : Nat
  name : String
  desc : String
  category : String
  pdf_path : String
  image_path : Option String
deriving Repr, DecidableEq

/-- The `materials` table plus SQLite's autoincrement counter (the id the
next `INSERT` will be assigned, returned to the insert callback as
`this.lastID`). -/
structure Db where
  rows : List Row
  nextId : Nat
deriving Repr, DecidableEq

/-- SQL `=` on the nullable `image_path` column: `NULL` on either side
never compares equal, otherwise the two texts are compared. -/
def sqlEq (stored param : Option String) : Bool :=
  match stored, param with
  | some x, some y => x == y
  | _, _ => false

/-- The `WHERE` clause of `checkDuplicateMaterial`, as a predicate on one
row: `name = ? AND desc = ? AND category = ? AND pdf_path = ? AND
(image_path = ? OR image_path IS NULL)`. -/
def duplicateWhere (name desc category pdf_path : String)
    (image_path : Option String) (r : Row) : Bool :=
  r.name == name && r.desc == desc && r.category == category &&
    r.pdf_path == pdf_path &&
    (sqlEq r.image_path image_path || r.image_path.isNone)

/-- `checkDuplicateMaterial`: `db.get` on the `SELECT` above returns some
row exactly when a row of the table satisfies the `WHERE` clause; the
callback maps that to a Boolean. -/
def checkDuplicateMaterial (db : Db) (name desc category pdf_path : String)
    (image_path : Option String) : Bool :=
  db.rows.any (duplicateWhere name desc category pdf_path image_path)

/-- JavaScript truthiness of a text field taken from `req.body`: an absent
field (`undefined`) and the empty string are both falsy. -/
def truthy : Option String → Bool
  | none => false
  | some s => s != ""

/-- The `id` field of a JSON response: the PUT handler echoes the raw
string route parameter, the POST handler returns the integer
`this.lastID`. -/
inductive JsonId where
  | str : String → JsonId
  | num : Nat → JsonId
deriving Repr, DecidableEq

/-- The `material` object of a POST/PUT success response. -/
structure MaterialResp where
  id : JsonId
  name : String
  desc : String
  category : String
  pdf_link : String
  image_link : Option String
deriving Repr, DecidableEq

/-- `` `${req.protocol}://${req.get('host')}/uploads/pdfs/${path.basename(p)}` ``;
`host` stands for the `protocol://host` prefix. -/
def pdfLink (host p : String) : String :=
  host ++ "/uploads/pdfs/" ++ basename p

/-- The `image_link` field: `null` when the image path is `null`. -/
def imageLink (host : String) : Option String → Option String
  | some ip => some (host ++ "/uploads/images/" ++ basename ip)
  | none => none

/-- A multipart request to POST or PUT `/api/materials`: the three text
fields of `req.body` and the optional `pdf` / `image` files. -/
structure MaterialReq where
  name : Option String
  desc : Option String
  category : Option String
  pdf : Option Upload
  image : Option Upload
deriving Repr, DecidableEq

/-- The multer phase `upload(req, res, ...)`: every supplied file is
written to its partition before the handler body runs. -/
def multerWrite (fs : FileSys) (req : MaterialReq) : FileSys :=
  let fs1 := match req.pdf with
    | some u => fsWrite fs (pdfUploadPath u)
    | none => fs
  match req.image with
  | some u => fsWrite fs1 (imageUploadPath u)
  | none => fs1

/-- Outcome of POST `/api/materials`. -/
inductive CreateResult where
  | badRequest : String → CreateResult
  | dbError : CreateResult
  | conflict : CreateResult
  | created : MaterialResp → CreateResult
deriving Repr, DecidableEq

/-- HTTP status code of a POST outcome. -/
def CreateResult.status : CreateResult → Nat
  | .badRequest _ => 400
  | .dbError => 500
  | .conflict => 409
  | .created _ => 201

/-- `INSERT INTO materials ... VALUES (?, ?, ?, ?, ?)`: appends the row
with the next autoincrement id and returns that id (`this.lastID`). -/
def insertRow (db : Db) (name desc category pdf_path : String)
    (image_path : Option String) : Db × Nat :=
  (⟨db.rows ++ [⟨db.nextId, name, desc, category, pdf_path, image_path⟩],
    db.nextId + 1⟩, db.nextId)

/-- The POST `/api/materials` handler.  `checkFails` injects a `db.get`
error into the duplicate check, `insertFails` a `db.run` error into the
insert.  Multer stores the files first; then the handler validates the
body fields, requires the pdf file, checks for a duplicate, and inserts. -/
def createMaterial (host : String) (fs : FileSys) (db : Db)
    (req : MaterialReq) (checkFails insertFails : Bool) :
    FileSys × Db × CreateResult :=
  let fs := multerWrite fs req
  if !(truthy req.name && truthy req.desc && truthy req.category) then
    (fs, db, .badRequest "Name, description, and category are required.")
  else
    match req.pdf with
    | none => (fs, db, .badRequest "PDF file is required.")
    | some pdfU =>
      let name := req.name.getD ""
      let desc := req.desc.getD ""
      let category := req.category.getD ""
      let pdf_path := pdfUploadPath pdfU
      let image_path := req.image.map imageUploadPath
      if checkFails then
        (fs, db, .dbError)
      else if checkDuplicateMaterial db name desc category pdf_path image_path then
        (fs, db, .conflict)
      else if insertFails then
        (fs, db, .dbError)
      else
        let (db', newId) := insertRow db name desc category pdf_path image_path
        (fs, db',
          .created ⟨.num newId, name, desc, category,
            pdfLink host pdf_path, imageLink host image_path⟩)

/-- Decimal digit accumulator for `parseId`. -/
def parseNatAux : List Char → Nat → Option Nat
  | [], acc => some acc
  | c :: cs, acc =>
    if c.isDigit then parseNatAux cs (acc * 10 + (c.toNat - 48))
    else none

/-- The numeric value SQLite's INTEGER column affinity gives the raw
string route parameter when comparing it against the `id` column: the
value of an all-digit parameter, none otherwise. -/
def parseId (s : String) : Option Nat :=
  match s.data with
  | [] => none
  | cs => parseNatAux cs 0

/-- `SELECT * FROM materials WHERE id = ?` with the raw string route
parameter: the INTEGER column affinity coerces the text to a number, so
the lookup finds the first row whose id equals the numeric value of the
parameter (none if the parameter is not numeric). -/
def findById (db : Db) (idParam : String) : Option Row :=
  match parseId idParam with
  | none => none
  | some n => db.rows.find? (fun r => r.id == n)

/-- `DELETE FROM materials WHERE id = ?`: every row with the matching id
is removed; the autoincrement counter is unaffected. -/
def deleteRows (db : Db) (idParam : String) : Db :=
  match parseId idParam with
  | none => db
  | some n => ⟨db.rows.filter (fun r => !(r.id == n)), db.nextId⟩

/-- Outcome of DELETE `/api/materials/:id`. -/
inductive DeleteResult where
  | notFound : DeleteResult
  | dbError : DeleteResult
  | ok : DeleteResult
deriving Repr, DecidableEq

/-- HTTP status code of a DELETE outcome. -/
def DeleteResult.status : DeleteResult → Nat
  | .notFound => 404
  | .dbError => 500
  | .ok => 200

/-- The DELETE `/api/materials/:id` handler.  `getFails` injects a
`db.get` error into the lookup (the code's `if (err || !row)` branch then
answers 404), `runFails` a `db.run` error into the row deletion.  When the
row is found, its pdf file and (when present) image file are unlinked
before the row is deleted. -/
def deleteMaterial (fs : FileSys) (db : Db) (idParam : String)
    (getFails runFails : Bool) : FileSys × Db × DeleteResult :=
  if getFails then
    (fs, db, .notFound)
  else
    match findById db idParam with
    | none => (fs, db, .notFound)
    | some row =>
      let fs := fsRemove fs row.pdf_path
      let fs := match row.image_path with
        | some ip => fsRemove fs ip
        | none => fs
      if runFails then
        (fs, db, .dbError)
      else
        (fs, deleteRows db idParam, .ok)

/-- Outcome of PUT `/api/materials/:id`. -/
inductive UpdateResult where
  | badRequest : String → UpdateResult
  | notFound : UpdateResult
  | dbError : UpdateResult
  | updated : MaterialResp → UpdateResult
deriving Repr, DecidableEq

/-- HTTP status code of a PUT outcome. -/
def UpdateResult.status : UpdateResult → Nat
  | .badRequest _ => 400
  | .notFound => 404
  | .dbError => 500
  | .updated _ => 200

/-- `UPDATE materials SET name = ?, desc = ?, category = ?, pdf_path = ?,
image_path = ? WHERE id = ?`: every row with the matching id takes the
new field values; its id is untouched. -/
def updateRows (db : Db) (idParam : String)
    (name desc category pdf_path : String) (image_path : Option String) : Db :=
  match parseId idParam with
  | none => db
  | some n =>
    ⟨db.rows.map (fun r =>
        if r.id == n then
          { r with name := name, desc := desc, category := category,
                   pdf_path := pdf_path, image_path := image_path }
        else r),
      db.nextId⟩

/-- The PUT `/api/materials/:id` handler.  Multer stores any supplied
files first; the handler validates the body fields, looks the row up
(`getFails` injects a `db.get` error, answered 404 by `if (err || !row)`),
replaces the pdf and/or image (unlinking the old file when a new one was
supplied), and runs the `UPDATE` (`runFails` injects a `db.run` error).
The response echoes the request fields and the raw string id parameter. -/
def updateMaterial (host : String) (fs : FileSys) (db : Db)
    (idParam : String) (req : MaterialReq) (getFails runFails : Bool) :
    FileSys × Db × UpdateResult :=
  let fs := multerWrite fs req
  if !(truthy req.name && truthy req.desc && truthy req.category) then
    (fs, db, .badRequest "Name, description, and category are required.")
  else if getFails then
    (fs, db, .notFound)
  else
    match findById db idParam with
    | none => (fs, db, .notFound)
    | some existing =>
      let fs := match req.pdf with
        | some _ => fsRemove fs existing.pdf_path
        | none => fs
      let newPdfPath := match req.pdf with
        | some u => pdfUploadPath u
        | none => existing.pdf_path
      let fs := match req.image with
        | some _ =>
          match existing.image_path with
          | some ip => fsRemove fs ip
          | none => fs
        | none => fs
      let newImagePath := match req.image with
        | some u => some (imageUploadPath u)
        | none => existing.image_path
      if runFails then
        (fs, db, .dbError)
      else
        (fs,
          updateRows db idParam (req.name.getD "") (req.desc.getD "")
            (req.category.getD "") newPdfPath newImagePath,
          .updated ⟨.str idParam, req.name.getD "", req.desc.getD "",
            req.category.getD "", pdfLink host newPdfPath,
            imageLink host newImagePath⟩)

/-- One element of the GET `/api/materials` response: the spread row plus
the derived links. -/
structure ListItem where
  id : Nat
  name : String
  desc : String
  category : String
  pdf_path : String
  image_path : Option String
  pdf_link : String
  image_link : Option String
deriving Repr, DecidableEq

/-- The GET `/api/materials` handler on a successful fetch. -/
def listMaterials (host : String) (db : Db) : List ListItem :=
  db.rows.map (fun r =>
    ⟨r.id, r.name, r.desc, r.category, r.pdf_path, r.image_path,
      pdfLink host r.pdf_path, imageLink host r.image_path⟩)

/-- The value `newPdfPath` holds when the PUT handler reaches the
`UPDATE`: the new upload's path when a pdf was supplied, the existing
row's path otherwise. -/
def updPdf (req : MaterialReq) (r : Row) : String :=
  match req.pdf with
  | some u => pdfUploadPath u
  | none => r.pdf_path

/-- The value `newImagePath` holds when the PUT handler reaches the
`UPDATE`: the new upload's path when an image was supplied, the existing
row's path (possibly null) otherwise. -/
def updImage (req : MaterialReq) (r : Row) : Option String :=
  match req.image with
  | some u => some (imageUploadPath u)
  | none => r.image_path

/-- The filesystem after the PUT handler's unlink steps, starting from
the post-multer filesystem: the old pdf is unlinked when a new pdf was
supplied, and the old image (when one existed) is unlinked when a new
image was supplied. -/
def updFs (fs : FileSys) (req : MaterialReq) (r : Row) : FileSys :=
  let fs1 := match req.pdf with
    | some _ => fsRemove fs r.pdf_path
    | none => fs
  match req.image with
  | some _ =>
    match r.image_path with
    | some ip => fsRemove fs1 ip
    | none => fs1
  | none => fs1

/-- The image-match relation exactly as claim C2 words it: a null supplied
`image_path` parameter matches either a stored null `image_path` or a
stored value equal to the supplied value; a non-null parameter matches a
stored value equal to it. -/
def specImageMatches (stored param : Option String) : Prop :=
  match param with
  | none => stored = none ∨ stored = param
  | some v => stored = some v

/-- `findExactMatch` exactly as claim C2 words it: a row exists whose
name, description, category and document path all equal the supplied
values and whose `image_path` matches in the sense of
`specImageMatches`. -/
def specFindExactMatch (db : Db) (name desc category pdf_path : String)
    (image_path : Option String) : Prop :=
  ∃ r ∈ db.rows, r.name = name ∧ r.desc = desc ∧ r.category = category ∧
    r.pdf_path = pdf_path ∧ specImageMatches r.image_path image_path

theorem sqlEq_eq_true_iff (stored param : Option String) :
    sqlEq stored param = true ↔ ∃ v, param = some v ∧ stored = some v := by
  cases stored <;> cases param <;> simp [sqlEq]

theorem fsWrite_nodup {fs : FileSys} {p : String} (h : fs.Nodup) :
    (fsWrite fs p).Nodup := by
  unfold fsWrite
  split
  · exact h
  · exact List.nodup_cons.2 ⟨by assumption, h⟩

theorem multerWrite_nodup {fs : FileSys} (req : MaterialReq)
    (h : fs.Nodup) : (multerWrite fs req).Nodup := by
  unfold multerWrite
  cases hp : req.pdf <;> cases hi : req.image <;>
    simp only [] <;> first
      | exact h
      | exact fsWrite_nodup h
      | exact fsWrite_nodup (fsWrite_nodup h)

/-- Claim C1: the spec asserts that a second sequential Create with
identical (name, desc, category, document-content, image-content) returns
a 409 conflict and leaves the row count unchanged.  The code compares
`pdf_path`, which embeds the `Date.now()` timestamp of the upload, so the
second call stores its document at a fresh path, the duplicate check finds
no match, and the code answers 201 with the row count grown to 2.  This
theorem evaluates the code at the failing input: create with name "n",
desc "d", category "c", pdf "f.pdf" at time 100; then the identical create
again at time 200. -/
theorem claim1_code_eval :
    createMaterial "h" [] ⟨[], 1⟩
        ⟨some "n", some "d", some "c", some ⟨"f.pdf", 100⟩, none⟩ false false =
      (["uploads/pdfs/100-f.pdf"],
        ⟨[⟨1, "n", "d", "c", "uploads/pdfs/100-f.pdf", none⟩], 2⟩,
        .created ⟨.num 1, "n", "d", "c", "h/uploads/pdfs/100-f.pdf", none⟩) ∧
    (createMaterial "h" ["uploads/pdfs/100-f.pdf"]
        ⟨[⟨1, "n", "d", "c", "uploads/pdfs/100-f.pdf", none⟩], 2⟩
        ⟨some "n", some "d", some "c", some ⟨"f.pdf", 200⟩, none⟩
        false false).2.2.status = 201 ∧
    (createMaterial "h" ["uploads/pdfs/100-f.pdf"]
        ⟨[⟨1, "n", "d", "c", "uploads/pdfs/100-f.pdf", none⟩], 2⟩
        ⟨some "n", some "d", some "c", some ⟨"f.pdf", 200⟩, none⟩
        false false).2.1.rows.length = 2 := by
  decide

/-- Claim C2 fails as stated: with supplied image_path `some "e"` and a
stored row whose image_path is null and whose other fields match, the
code's `checkDuplicateMaterial` returns true although the claim's
predicate (`specFindExactMatch`) does not hold — the code's `OR image_path
IS NULL` lets a stored null match a non-null parameter, which the claim
only allows for a null parameter. -/
theorem claim2_counterexample :
    checkDuplicateMaterial ⟨[⟨1, "a", "b", "c", "d", none⟩], 2⟩
        "a" "b" "c" "d" (some "e") = true ∧
    ¬ specFindExactMatch ⟨[⟨1, "a", "b", "c", "d", none⟩], 2⟩
        "a" "b" "c" "d" (some "e") := by
  refine ⟨by decide, ?_⟩
  rintro ⟨r, hr, -, -, -, -, h5⟩
  simp only [List.mem_singleton] at hr
  subst hr
  simp [specImageMatches] at h5

/-- Claim C2 (amended): `checkDuplicateMaterial` returns true exactly when
a row exists whose name, description, category and document path equal the
supplied values and whose stored image_path is either null (matching ANY
supplied parameter) or equal to a non-null supplied parameter. -/
theorem claim2_theorem (db : Db) (name desc category pdf_path : String)
    (image_path : Option String) :
    checkDuplicateMaterial db name desc category pdf_path image_path = true ↔
    ∃ r ∈ db.rows, r.name = name ∧ r.desc = desc ∧ r.category = category ∧
      r.pdf_path = pdf_path ∧
      (r.image_path = none ∨
        ∃ v, image_path = some v ∧ r.image_path = some v) := by
  simp only [checkDuplicateMaterial, List.any_eq_true, duplicateWhere,
    Bool.and_eq_true, beq_iff_eq, Bool.or_eq_true, sqlEq_eq_true_iff,
    Option.isNone_iff_eq_none]
  refine exists_congr fun r => and_congr_right fun _ => ?_
  constructor
  · rintro ⟨⟨⟨⟨h1, h2⟩, h3⟩, h4⟩, h5⟩
    exact ⟨h1, h2, h3, h4, h5.symm⟩
  · rintro ⟨h1, h2, h3, h4, h5⟩
    exact ⟨⟨⟨⟨h1, h2⟩, h3⟩, h4⟩, h5.symm⟩

/-- Claim C4 fails as stated: the claim says a database failure never
produces 404, but the DELETE handler's `if (err || !row)` answers 404 when
`db.get` reports an error during the lookup — here on an id that exists. -/
theorem claim4_counterexample :
    deleteMaterial ["p"] ⟨[⟨1, "n", "d", "c", "p", none⟩], 2⟩ "1"
        true false =
      (["p"], ⟨[⟨1, "n", "d", "c", "p", none⟩], 2⟩, .notFound) ∧
    DeleteResult.notFound.status = 404 := by
  decide

/-- Claim C4 (amended): on Delete and Update an unknown id yields 404 and
a database failure during the DELETE/UPDATE statement itself yields 500,
but a database failure during the initial lookup is conflated with
NotFound and yields 404. -/
theorem claim4_theorem (fs : FileSys) (db : Db) (idParam host : String)
    (req : MaterialReq) (r : Row) :
    (findById db idParam = none →
      deleteMaterial fs db idParam false false = (fs, db, .notFound)) ∧
    ((deleteMaterial fs db idParam true false).2.2 = .notFound) ∧
    (findById db idParam = some r →
      (deleteMaterial fs db idParam false true).2.2 = .dbError) ∧
    (truthy req.name = true → truthy req.desc = true →
      truthy req.category = true → findById db idParam = none →
      updateMaterial host fs db idParam req false false =
        (multerWrite fs req, db, .notFound)) ∧
    (truthy req.name = true → truthy req.desc = true →
      truthy req.category = true →
      (updateMaterial host fs db idParam req true false).2.2 = .notFound) ∧
    (truthy req.name = true → truthy req.desc = true →
      truthy req.category = true → findById db idParam = some r →
      (updateMaterial host fs db idParam req false true).2.2 = .dbError) := by
  refine ⟨?_, ?_, ?_, ?_, ?_, ?_⟩
  · intro h
    simp [deleteMaterial, h]
  · simp [deleteMaterial]
  · intro h
    simp only [deleteMaterial, h]
    cases r.image_path <;> simp
  · intro h1 h2 h3 h
    simp [updateMaterial, h1, h2, h3, h]
  · intro h1 h2 h3
    simp [updateMaterial, h1, h2, h3]
  · intro h1 h2 h3 h
    simp only [updateMaterial, h1, h2, h3, h]
    cases req.pdf <;> cases req.image <;> cases r.image_path <;> simp

/-- Claim C4 witness: concrete instances — unknown id "9" gives 404 with
no mutation; a `db.run` failure while deleting or updating the existing
id 1 gives 500; a `db.get` failure during the lookup gives 404. -/
theorem claim4_witness :
    deleteMaterial ["p"] ⟨[⟨1, "n", "d", "c", "p", none⟩], 2⟩ "9"
        false false =
      (["p"], ⟨[⟨1, "n", "d", "c", "p", none⟩], 2⟩, .notFound) ∧
    (deleteMaterial ["p"] ⟨[⟨1, "n", "d", "c", "p", none⟩], 2⟩ "1"
        false true).2.2 = .dbError ∧
    (updateMaterial "h" ["p"] ⟨[⟨1, "n", "d", "c", "p", none⟩], 2⟩ "1"
        ⟨some "a", some "b", some "c", none, none⟩ false true).2.2 =
      .dbError := by
  refine ⟨?_, ?_, ?_⟩
  · exact ( claim4_theorem ["p"] ⟨[⟨1, "n", "d", "c", "p", none⟩], 2⟩ "9" "h"
      ⟨some "a", some "b", some "c", none, none⟩
      ⟨1, "n", "d", "c", "p", none⟩).1 (by decide)
  · exact ( claim4_theorem ["p"] ⟨[⟨1, "n", "d", "c", "p", none⟩], 2⟩ "1" "h"
      ⟨some "a", some "b", some "c", none, none⟩
      ⟨1, "n", "d", "c", "p", none⟩).2.2.1 (by decide)
  · exact ( claim4_theorem ["p"] ⟨[⟨1, "n", "d", "c", "p", none⟩], 2⟩ "1" "h"
      ⟨some "a", some "b", some "c", none, none⟩
      ⟨1, "n", "d", "c", "p", none⟩).2.2.2.2.2 (by decide) (by decide)
      (by decide) (by decide)

/-- Claim C8: Delete on an id for which no row exists returns 404 and
mutates nothing: the filesystem and the database are returned unchanged. -/
theorem claim8_theorem (fs : FileSys) (db : Db) (idParam : String)
    (h : findById db idParam = none) :
    deleteMaterial fs db idParam false false = (fs, db, .notFound) := by
  simp [deleteMaterial, h]

/-- Claim C8 witness: deleting id "7" from a store holding only id 1
answers 404 and leaves both the filesystem and the table untouched. -/
theorem claim8_witness :
    deleteMaterial ["p"] ⟨[⟨1, "n", "d", "c", "p", none⟩], 2⟩ "7"
        false false =
      (["p"], ⟨[⟨1, "n", "d", "c", "p", none⟩], 2⟩, .notFound) :=
  claim8_theorem ["p"] ⟨[⟨1, "n", "d", "c", "p", none⟩], 2⟩ "7" (by decide)

theorem updateMaterial_found (host : String) (fs : FileSys) (db : Db)
    (idParam : String) (req : MaterialReq) (r : Row)
    (h1 : truthy req.name = true) (h2 : truthy req.desc = true)
    (h3 : truthy req.category = true)
    (hfind : findById db idParam = some r) :
    updateMaterial host fs db idParam req false false =
      (updFs (multerWrite fs req) req r,
        updateRows db idParam (req.name.getD "") (req.desc.getD "")
          (req.category.getD "") (updPdf req r) (updImage req r),
        .updated ⟨.str idParam, req.name.getD "", req.desc.getD "",
          req.category.getD "", pdfLink host (updPdf req r),
          imageLink host (updImage req r)⟩) := by
  cases hp : req.pdf <;> cases hi : req.image <;> cases hip : r.image_path <;>
    simp [updateMaterial, updFs, updPdf, updImage, h1, h2, h3, hfind,
      hp, hi, hip]

/-- Claim C3 fails as stated: a Create with an empty name but a supplied
pdf answers 400 and inserts no row, yet the pdf file has already been
written to the attachment store by the upload phase — the side-effect-free
part of the claim is false. -/
theorem claim3_counterexample :
    createMaterial "h" [] ⟨[], 1⟩
        ⟨some "", some "d", some "c", some ⟨"f.pdf", 100⟩, none⟩
        false false =
      (["uploads/pdfs/100-f.pdf"], ⟨[], 1⟩,
        .badRequest "Name, description, and category are required.") ∧
    "uploads/pdfs/100-f.pdf" ∉ ([] : FileSys) := by
  decide

/-- Claim C3 (amended): a Create whose required fields are missing or
empty, or whose pdf is absent, fails with a 400 validation error and
inserts no row; but multer has already written any supplied files, so the
filesystem ends as `multerWrite fs req`, not necessarily as `fs`. -/
theorem claim3_theorem (host : String) (fs : FileSys) (db : Db)
    (req : MaterialReq) (cf insf : Bool)
    (h : truthy req.name = false ∨ truthy req.desc = false ∨
      truthy req.category = false ∨ req.pdf = none) :
    (createMaterial host fs db req cf insf).2.2.status = 400 ∧
    (createMaterial host fs db req cf insf).2.1 = db ∧
    (createMaterial host fs db req cf insf).1 = multerWrite fs req := by
  rcases h with h | h | h | h
  · simp [createMaterial, h, CreateResult.status]
  · simp [createMaterial, h, CreateResult.status]
  · simp [createMaterial, h, CreateResult.status]
  · simp only [createMaterial, h]
    split <;> simp [CreateResult.status]

/-- Claim C3 witness: Create with an empty name and a supplied pdf gives
status 400, an unchanged table, and the post-upload filesystem. -/
theorem claim3_witness :
    (createMaterial "h" [] ⟨[], 1⟩
        ⟨some "", some "d", some "c", some ⟨"g.pdf", 100⟩, none⟩
        true false).2.2.status = 400 ∧
    (createMaterial "h" [] ⟨[], 1⟩
        ⟨some "", some "d", some "c", some ⟨"g.pdf", 100⟩, none⟩
        true false).2.1 = ⟨[], 1⟩ ∧
    (createMaterial "h" [] ⟨[], 1⟩
        ⟨some "", some "d", some "c", some ⟨"g.pdf", 100⟩, none⟩
        true false).1 =
      multerWrite [] ⟨some "", some "d", some "c", some ⟨"g.pdf", 100⟩, none⟩ :=
  claim3_theorem "h" [] ⟨[], 1⟩
    ⟨some "", some "d", some "c", some ⟨"g.pdf", 100⟩, none⟩ true false
    (Or.inl (by decide))

/-- Claim C9: the permissive `OR image_path IS NULL` makes the duplicate
check match a stored image-less row even when the Create supplies an
image, so such a Create fails with 409 and leaves the table unchanged. -/
theorem claim9_theorem (host : String) (fs : FileSys) (db : Db)
    (req : MaterialReq) (r : Row) (u v : Upload)
    (hr : r ∈ db.rows) (hri : r.image_path = none)
    (hname : req.name = some r.name) (hdesc : req.desc = some r.desc)
    (hcat : req.category = some r.category)
    (hn : r.name ≠ "") (hd : r.desc ≠ "") (hc : r.category ≠ "")
    (hpdf : req.pdf = some u) (hpp : r.pdf_path = pdfUploadPath u)
    (himg : req.image = some v) :
    checkDuplicateMaterial db r.name r.desc r.category (pdfUploadPath u)
        (some (imageUploadPath v)) = true ∧
    createMaterial host fs db req false false =
      (multerWrite fs req, db, .conflict) := by
  have hdup : checkDuplicateMaterial db r.name r.desc r.category
      (pdfUploadPath u) (some (imageUploadPath v)) = true := by
    refine List.any_eq_true.2 ⟨r, hr, ?_⟩
    simp [duplicateWhere, hri, ← hpp]
  refine ⟨hdup, ?_⟩
  simp [createMaterial, hname, hdesc, hcat, hpdf, himg, truthy,
    hn, hd, hc, hdup]

/-- Claim C9 witness: a table holding an image-less material; the same
metadata with the same stored document path plus an image answers 409
with the table unchanged. -/
theorem claim9_witness :
    checkDuplicateMaterial ⟨[⟨1, "n", "d", "c", "uploads/pdfs/100-f.pdf", none⟩], 2⟩
        "n" "d" "c" (pdfUploadPath ⟨"f.pdf", 100⟩)
        (some (imageUploadPath ⟨"i.png", 100⟩)) = true ∧
    createMaterial "h" [] ⟨[⟨1, "n", "d", "c", "uploads/pdfs/100-f.pdf", none⟩], 2⟩
        ⟨some "n", some "d", some "c", some ⟨"f.pdf", 100⟩, some ⟨"i.png", 100⟩⟩
        false false =
      (multerWrite []
          ⟨some "n", some "d", some "c", some ⟨"f.pdf", 100⟩, some ⟨"i.png", 100⟩⟩,
        ⟨[⟨1, "n", "d", "c", "uploads/pdfs/100-f.pdf", none⟩], 2⟩, .conflict) :=
  claim9_theorem "h" [] ⟨[⟨1, "n", "d", "c", "uploads/pdfs/100-f.pdf", none⟩], 2⟩
    ⟨some "n", some "d", some "c", some ⟨"f.pdf", 100⟩, some ⟨"i.png", 100⟩⟩
    ⟨1, "n", "d", "c", "uploads/pdfs/100-f.pdf", none⟩
    ⟨"f.pdf", 100⟩ ⟨"i.png", 100⟩
    (by decide) rfl rfl rfl rfl (by decide) (by decide) (by decide)
    rfl (by decide) rfl

theorem findById_parse (db : Db) (idParam : String) (r : Row)
    (hfind : findById db idParam = some r) :
    ∃ n, parseId idParam = some n ∧ r.id = n ∧ r ∈ db.rows := by
  unfold findById at hfind
  cases hpi : parseId idParam with
  | none => rw [hpi] at hfind; simp at hfind
  | some n =>
    rw [hpi] at hfind
    exact ⟨n, rfl, by simpa using List.find?_some hfind,
      List.mem_of_find?_eq_some hfind⟩

theorem updateRows_mem (db : Db) (idParam : String)
    (name desc category pdf_path : String) (image_path : Option String)
    (n : Nat) (hpi : parseId idParam = some n) (row : Row)
    (hrow : row ∈ (updateRows db idParam name desc category pdf_path
      image_path).rows)
    (hid : row.id = n) :
    row.pdf_path = pdf_path ∧ row.image_path = image_path := by
  simp only [updateRows, hpi, List.mem_map] at hrow
  obtain ⟨row', -, rfl⟩ := hrow
  by_cases h : row'.id = n
  · constructor <;> simp [h]
  · simp [h] at hid

/-- Claim C5: Delete on an existing id answers 200, removes exactly the
rows with that id, removes the row's pdf file and (when present) its
image file, and succeeds for ANY filesystem — in particular one where the
files are already absent; the deleted id is absent from a subsequent
List. -/
theorem claim5_theorem (fs : FileSys) (db : Db) (idParam host : String)
    (r : Row) (hfind : findById db idParam = some r) (hnd : fs.Nodup) :
    (deleteMaterial fs db idParam false false).2.2 = .ok ∧
    (deleteMaterial fs db idParam false false).2.1 = deleteRows db idParam ∧
    r.pdf_path ∉ (deleteMaterial fs db idParam false false).1 ∧
    (∀ ip, r.image_path = some ip →
      ip ∉ (deleteMaterial fs db idParam false false).1) ∧
    (∀ item ∈ listMaterials host (deleteRows db idParam),
      item.id ≠ r.id) := by
  obtain ⟨n, hpi, hidn, -⟩ := findById_parse db idParam r hfind
  refine ⟨?_, ?_, ?_, ?_, ?_⟩
  · cases hip : r.image_path <;> simp [deleteMaterial, hfind, hip]
  · cases hip : r.image_path <;> simp [deleteMaterial, hfind, hip]
  · cases hip : r.image_path <;>
      simp only [deleteMaterial, hfind, hip, Bool.false_eq_true,
        if_false, fsRemove]
    · exact hnd.not_mem_erase
    · exact fun hmem => hnd.not_mem_erase (List.mem_of_mem_erase hmem)
  · intro ip hip
    simp only [deleteMaterial, hfind, hip, Bool.false_eq_true, if_false,
      fsRemove]
    exact (hnd.erase r.pdf_path).not_mem_erase
  · intro item hitem
    simp only [listMaterials, List.mem_map] at hitem
    obtain ⟨row, hrow, rfl⟩ := hitem
    simp only [deleteRows, hpi, List.mem_filter] at hrow
    have : row.id ≠ n := by simpa using hrow.2
    simpa [hidn] using this

/-- Claim C5 witness: deleting id 1, which owns a pdf and an image, from
a filesystem holding both files answers 200, leaves the filtered table,
and the document file is gone. -/
theorem claim5_witness :
    (deleteMaterial ["uploads/pdfs/100-f.pdf", "uploads/images/100-i.png"]
        ⟨[⟨1, "n", "d", "c", "uploads/pdfs/100-f.pdf",
          some "uploads/images/100-i.png"⟩], 2⟩ "1" false false).2.2 = .ok ∧
    (deleteMaterial ["uploads/pdfs/100-f.pdf", "uploads/images/100-i.png"]
        ⟨[⟨1, "n", "d", "c", "uploads/pdfs/100-f.pdf",
          some "uploads/images/100-i.png"⟩], 2⟩ "1" false false).2.1 =
      deleteRows ⟨[⟨1, "n", "d", "c", "uploads/pdfs/100-f.pdf",
        some "uploads/images/100-i.png"⟩], 2⟩ "1" ∧
    "uploads/pdfs/100-f.pdf" ∉
      (deleteMaterial ["uploads/pdfs/100-f.pdf", "uploads/images/100-i.png"]
        ⟨[⟨1, "n", "d", "c", "uploads/pdfs/100-f.pdf",
          some "uploads/images/100-i.png"⟩], 2⟩ "1" false false).1 :=
  ⟨( claim5_theorem ["uploads/pdfs/100-f.pdf", "uploads/images/100-i.png"]
      ⟨[⟨1, "n", "d", "c", "uploads/pdfs/100-f.pdf",
        some "uploads/images/100-i.png"⟩], 2⟩ "1" "h"
      ⟨1, "n", "d", "c", "uploads/pdfs/100-f.pdf",
        some "uploads/images/100-i.png"⟩ (by decide) (by decide)).1,
    ( claim5_theorem ["uploads/pdfs/100-f.pdf", "uploads/images/100-i.png"]
      ⟨[⟨1, "n", "d", "c", "uploads/pdfs/100-f.pdf",
        some "uploads/images/100-i.png"⟩], 2⟩ "1" "h"
      ⟨1, "n", "d", "c", "uploads/pdfs/100-f.pdf",
        some "uploads/images/100-i.png"⟩ (by decide) (by decide)).2.1,
    ( claim5_theorem ["uploads/pdfs/100-f.pdf", "uploads/images/100-i.png"]
      ⟨[⟨1, "n", "d", "c", "uploads/pdfs/100-f.pdf",
        some "uploads/images/100-i.png"⟩], 2⟩ "1" "h"
      ⟨1, "n", "d", "c", "uploads/pdfs/100-f.pdf",
        some "uploads/images/100-i.png"⟩ (by decide) (by decide)).2.2.1⟩

/-- Claim C6: Update on an existing id with a new document removes the
previous document file from the filesystem, stores the new path in the
row, and the returned pdf_link is built from the new file's name. -/
theorem claim6_theorem (host : String) (fs : FileSys) (db : Db)
    (idParam : String) (req : MaterialReq) (r : Row) (u : Upload)
    (h1 : truthy req.name = true) (h2 : truthy req.desc = true)
    (h3 : truthy req.category = true)
    (hfind : findById db idParam = some r) (hpdf : req.pdf = some u)
    (hnd : fs.Nodup) :
    (updateMaterial host fs db idParam req false false).2.2 =
      .updated ⟨.str idParam, req.name.getD "", req.desc.getD "",
        req.category.getD "", pdfLink host (pdfUploadPath u),
        imageLink host (updImage req r)⟩ ∧
    (∀ row ∈ (updateMaterial host fs db idParam req false false).2.1.rows,
      row.id = r.id → row.pdf_path = pdfUploadPath u) ∧
    r.pdf_path ∉ (updateMaterial host fs db idParam req false false).1 := by
  have hupd := updateMaterial_found host fs db idParam req r h1 h2 h3 hfind
  obtain ⟨n, hpi, hidn, -⟩ := findById_parse db idParam r hfind
  have hnd2 : (multerWrite fs req).Nodup := multerWrite_nodup req hnd
  refine ⟨?_, ?_, ?_⟩
  · rw [hupd]
    simp [updPdf, hpdf]
  · rw [hupd]
    intro row hrow hid
    have := updateRows_mem db idParam (req.name.getD "") (req.desc.getD "")
      (req.category.getD "") (updPdf req r) (updImage req r) n hpi row hrow
      (hidn ▸ hid)
    rw [this.1]
    simp [updPdf, hpdf]
  · rw [hupd]
    simp only [updFs, hpdf, fsRemove]
    cases hi : req.image with
    | none => exact hnd2.not_mem_erase
    | some w =>
      cases hip : r.image_path with
      | none => exact hnd2.not_mem_erase
      | some ip =>
        exact fun hmem => hnd2.not_mem_erase (List.mem_of_mem_erase hmem)

/-- Claim C6 witness: updating id 1 with a new document "new.pdf" at time
200 yields the response built from the new file's name, and the old
document file is gone from the filesystem. -/
theorem claim6_witness :
    (updateMaterial "h" ["uploads/pdfs/50-old.pdf"]
        ⟨[⟨1, "n", "d", "c", "uploads/pdfs/50-old.pdf", none⟩], 2⟩ "1"
        ⟨some "a", some "b", some "c", some ⟨"new.pdf", 200⟩, none⟩
        false false).2.2 =
      .updated ⟨.str "1", "a", "b", "c",
        pdfLink "h" (pdfUploadPath ⟨"new.pdf", 200⟩),
        imageLink "h" (updImage
          ⟨some "a", some "b", some "c", some ⟨"new.pdf", 200⟩, none⟩
          ⟨1, "n", "d", "c", "uploads/pdfs/50-old.pdf", none⟩)⟩ ∧
    "uploads/pdfs/50-old.pdf" ∉
      (updateMaterial "h" ["uploads/pdfs/50-old.pdf"]
        ⟨[⟨1, "n", "d", "c", "uploads/pdfs/50-old.pdf", none⟩], 2⟩ "1"
        ⟨some "a", some "b", some "c", some ⟨"new.pdf", 200⟩, none⟩
        false false).1 :=
  ⟨( claim6_theorem "h" ["uploads/pdfs/50-old.pdf"]
      ⟨[⟨1, "n", "d", "c", "uploads/pdfs/50-old.pdf", none⟩], 2⟩ "1"
      ⟨some "a", some "b", some "c", some ⟨"new.pdf", 200⟩, none⟩
      ⟨1, "n", "d", "c", "uploads/pdfs/50-old.pdf", none⟩ ⟨"new.pdf", 200⟩
      (by decide) (by decide) (by decide) (by decide) rfl (by decide)).1,
    ( claim6_theorem "h" ["uploads/pdfs/50-old.pdf"]
      ⟨[⟨1, "n", "d", "c", "uploads/pdfs/50-old.pdf", none⟩], 2⟩ "1"
      ⟨some "a", some "b", some "c", some ⟨"new.pdf", 200⟩, none⟩
      ⟨1, "n", "d", "c", "uploads/pdfs/50-old.pdf", none⟩ ⟨"new.pdf", 200⟩
      (by decide) (by decide) (by decide) (by decide) rfl (by decide)).2.2⟩

/-- Claim C7: Update on an existing id without a new image keeps the
stored image path of that id's row unchanged — the response's image_link
is derived from the existing image path, and no row with that id has its
image path cleared or altered. -/
theorem claim7_theorem (host : String) (fs : FileSys) (db : Db)
    (idParam : String) (req : MaterialReq) (r : Row)
    (h1 : truthy req.name = true) (h2 : truthy req.desc = true)
    (h3 : truthy req.category = true)
    (hfind : findById db idParam = some r) (himg : req.image = none) :
    (updateMaterial host fs db idParam req false false).2.2 =
      .updated ⟨.str idParam, req.name.getD "", req.desc.getD "",
        req.category.getD "", pdfLink host (updPdf req r),
        imageLink host r.image_path⟩ ∧
    (∀ row ∈ (updateMaterial host fs db idParam req false false).2.1.rows,
      row.id = r.id → row.image_path = r.image_path) := by
  have hupd := updateMaterial_found host fs db idParam req r h1 h2 h3 hfind
  obtain ⟨n, hpi, hidn, -⟩ := findById_parse db idParam r hfind
  refine ⟨?_, ?_⟩
  · rw [hupd]
    simp [updImage, himg]
  · rw [hupd]
    intro row hrow hid
    have := updateRows_mem db idParam (req.name.getD "") (req.desc.getD "")
      (req.category.getD "") (updPdf req r) (updImage req r) n hpi row hrow
      (hidn ▸ hid)
    rw [this.2]
    simp [updImage, himg]

/-- Claim C7 witness: updating id 1 (which owns image "q") with no new
image answers with the old image's link and the stored image path of row
1 stays "q". -/
theorem claim7_witness :
    (updateMaterial "h" [] ⟨[⟨1, "n", "d", "c", "p", some "q"⟩], 2⟩ "1"
        ⟨some "a", some "b", some "c", none, none⟩ false false).2.2 =
      .updated ⟨.str "1", "a", "b", "c",
        pdfLink "h" (updPdf ⟨some "a", some "b", some "c", none, none⟩
          ⟨1, "n", "d", "c", "p", some "q"⟩),
        imageLink "h" (some "q")⟩ :=
  ( claim7_theorem "h" [] ⟨[⟨1, "n", "d", "c", "p", some "q"⟩], 2⟩ "1"
    ⟨some "a", some "b", some "c", none, none⟩
    ⟨1, "n", "d", "c", "p", some "q"⟩
    (by decide) (by decide) (by decide) (by decide) rfl).1

/-- Claim C10: a successful Update echoes the request's field values and
the raw string id route parameter (so its id is never an integer), while
a successful Create returns the integer id the repository assigns
(`this.lastID`, the autoincrement counter). -/
theorem claim10_theorem (host : String) (fs : FileSys) (db : Db)
    (idParam : String) (req : MaterialReq) (gf rf cf insf : Bool) :
    (∀ m, (updateMaterial host fs db idParam req gf rf).2.2 = .updated m →
      m.id = .str idParam ∧ m.name = req.name.getD "" ∧
      m.desc = req.desc.getD "" ∧ m.category = req.category.getD "" ∧
      ∀ k : Nat, m.id ≠ .num k) ∧
    (∀ m, (createMaterial host fs db req cf insf).2.2 = .created m →
      m.id = .num db.nextId) := by
  constructor
  · intro m hm
    simp only [updateMaterial] at hm
    repeat' split at hm
    all_goals try simp_all
    all_goals subst hm
    all_goals simp
  · intro m hm
    simp only [createMaterial, insertRow] at hm
    repeat' split at hm
    all_goals try simp_all
    all_goals subst hm
    all_goals simp

/-- Claim C10 witness: a concrete successful Update answers the string id
"1", and a concrete successful Create answers the integer id 1. -/
theorem claim10_witness :
    (⟨.str "1", "a", "b", "c", "h/uploads/pdfs/p", none⟩ :
      MaterialResp).id = .str "1" ∧
    (⟨.num 1, "n", "d", "c", "h/uploads/pdfs/100-f.pdf", none⟩ :
      MaterialResp).id = .num 1 :=
  ⟨(( claim10_theorem "h" [] ⟨[⟨1, "n", "d", "c", "p", none⟩], 2⟩ "1"
      ⟨some "a", some "b", some "c", none, none⟩ false false false false).1
      ⟨.str "1", "a", "b", "c", "h/uploads/pdfs/p", none⟩ (by decide)).1,
    ( claim10_theorem "h" [] ⟨[], 1⟩ "x"
      ⟨some "n", some "d", some "c", some ⟨"f.pdf", 100⟩, none⟩
      false false false false).2
      ⟨.num 1, "n", "d", "c", "h/uploads/pdfs/100-f.pdf", none⟩ (by decide)⟩

end HamzaServer
